import Mathlib

/-!
Shallow embedding of the Calorie_Counter repository
(`gemini_client.py`, `gsheets_client.py`, `telegram_bot.py`) in Lean 4,
together with theorems settling the frozen claims about it.

External collaborators (the generative-model transport, the `json` module,
`datetime.strptime`/`strftime`, Python `int()` on strings, the gspread
spreadsheet API) are modelled explicitly; the repository's own control flow
is translated line by line from the source.
-/

namespace CalorieCounter

/-- JSON values as produced by Python `json.loads` on the model replies.
The model covers `null`, booleans, integers, strings, arrays and objects;
floating-point numbers and `\u` string escapes are outside the model's scope
(no claim involves them). -/
inductive JVal : Type where
  | null : JVal
  | bool : Bool → JVal
  | int : Int → JVal
  | str : String → JVal
  | arr : List JVal → JVal
  | obj : List (String × JVal) → JVal
deriving Repr

/-- A spreadsheet cell as handed to `append_row`: the row built in
`append_food_entry` holds strings, integers, or Python `None`. -/
inductive Cell : Type where
  | null : Cell
  | str : String → Cell
  | int : Int → Cell
deriving Repr, DecidableEq

/-- The `NutritionRecord` of the data model: `food_item`, `calories` and the
three macros, each nullable. -/
structure NutritionRecord : Type where
  food_item : Option String
  calories : Option Int
  protein : Option Int
  carbohydrates : Option Int
  fat : Option Int
deriving Repr, DecidableEq

/-! ### A model of Python `json.loads` (strict JSON parsing)

`gemini_client.analyze_content` and `parse_query` call `json.loads` on the
(fence-stripped) reply text.  The parser below is a faithful model of that
call restricted to the integer fragment: leading/trailing whitespace is
allowed, any trailing non-whitespace after the single value is a parse
error, numbers are `-?(0|[1-9][0-9]*)` (a fractional part or exponent makes
the parse fail in the model where Python would produce a float), strings
support the escapes `\" \\ \/ \b \f \n \r \t` and reject unescaped control
characters. -/

def isJsonWs (c : Char) : Bool :=
  c = ' ' || c = '\t' || c = '\n' || c = '\r'

def skipWs : List Char → List Char
  | [] => []
  | c :: cs => if isJsonWs c then skipWs cs else c :: cs

def escChar (c : Char) : Option Char :=
  if c = '"' then some '"'
  else if c = '\\' then some '\\'
  else if c = '/' then some '/'
  else if c = 'b' then some (Char.ofNat 8)
  else if c = 'f' then some (Char.ofNat 12)
  else if c = 'n' then some '\n'
  else if c = 'r' then some '\r'
  else if c = 't' then some '\t'
  else none

/-- Parse the remainder of a JSON string literal (the opening quote has been
consumed), accumulating characters in reverse. -/
def parseStringRest : List Char → List Char → Option (String × List Char)
  | acc, '"' :: rest => some (String.mk acc.reverse, rest)
  | acc, '\\' :: e :: rest =>
      match escChar e with
      | some c => parseStringRest (c :: acc) rest
      | none => none
  | acc, c :: rest =>
      if c.toNat < 32 then none else parseStringRest (c :: acc) rest
  | _, [] => none

def digitsToNat : List Char → Nat
  | cs => cs.foldl (fun n c => n * 10 + (c.toNat - 48)) 0

/-- Parse a JSON integer `-?(0|[1-9][0-9]*)` from the head of the input. -/
def parseIntTok : List Char → Option (Int × List Char)
  | cs =>
    let (neg, cs1) :=
      match cs with
      | '-' :: rest => (true, rest)
      | _ => (false, cs)
    match cs1 with
    | [] => none
    | c :: rest =>
      if c = '0' then
        some ((if neg then (0 : Int) else 0), rest)
      else if c.isDigit then
        let ds := (c :: rest).takeWhile Char.isDigit
        let tail := (c :: rest).dropWhile Char.isDigit
        let n : Int := Int.ofNat (digitsToNat ds)
        some ((if neg then -n else n), tail)
      else none

mutual

/-- Parse one JSON value from the input (fuel-indexed recursion). -/
def parseVal : Nat → List Char → Option (JVal × List Char)
  | 0, _ => none
  | Nat.succ f, cs =>
    match skipWs cs with
    | [] => none
    | 'n' :: 'u' :: 'l' :: 'l' :: rest => some (JVal.null, rest)
    | 't' :: 'r' :: 'u' :: 'e' :: rest => some (JVal.bool true, rest)
    | 'f' :: 'a' :: 'l' :: 's' :: 'e' :: rest => some (JVal.bool false, rest)
    | '"' :: rest =>
        match parseStringRest [] rest with
        | some (s, rest1) => some (JVal.str s, rest1)
        | none => none
    | '[' :: rest =>
        (match skipWs rest with
         | ']' :: rest1 => some (JVal.arr [], rest1)
         | _ =>
           match parseItems f rest [] with
           | some (vs, rest1) => some (JVal.arr vs, rest1)
           | none => none)
    | '{' :: rest =>
        (match skipWs rest with
         | '}' :: rest1 => some (JVal.obj [], rest1)
         | _ =>
           match parseMembers f rest [] with
           | some (ms, rest1) => some (JVal.obj ms, rest1)
           | none => none)
    | c :: rest =>
        if c = '-' || c.isDigit then
          match parseIntTok (c :: rest) with
          | some (n, rest1) => some (JVal.int n, rest1)
          | none => none
        else none

/-- Parse the comma-separated items of a JSON array (terminating `]`). -/
def parseItems : Nat → List Char → List JVal → Option (List JVal × List Char)
  | 0, _, _ => none
  | Nat.succ f, cs, acc =>
    match parseVal f cs with
    | none => none
    | some (v, rest) =>
      match skipWs rest with
      | ',' :: rest1 => parseItems f rest1 (acc ++ [v])
      | ']' :: rest1 => some (acc ++ [v], rest1)
      | _ => none

/-- Parse the comma-separated members of a JSON object (terminating `}`). -/
def parseMembers : Nat → List Char → List (String × JVal) →
    Option (List (String × JVal) × List Char)
  | 0, _, _ => none
  | Nat.succ f, cs, acc =>
    match skipWs cs with
    | '"' :: rest =>
      (match parseStringRest [] rest with
       | none => none
       | some (k, rest1) =>
         match skipWs rest1 with
         | ':' :: rest2 =>
           (match parseVal f rest2 with
            | none => none
            | some (v, rest3) =>
              match skipWs rest3 with
              | ',' :: rest4 => parseMembers f rest4 (acc ++ [(k, v)])
              | '}' :: rest4 => some (acc ++ [(k, v)], rest4)
              | _ => none)
         | _ => none)
    | _ => none

end

/-- Model of `json.loads`: one JSON value, whitespace allowed on either
side, trailing data is an error. -/
def jsonLoads (s : String) : Option JVal :=
  match parseVal (s.length + 1) s.data with
  | some (v, rest) => if skipWs rest = [] then some v else none
  | none => none

/-! ### `gemini_client.analyze_content` -/

/-- Python `str.strip()`: drop ASCII whitespace from both ends (the exotic
Unicode whitespace Python also strips is outside the model's scope). -/
def dropWsList : List Char → List Char
  | [] => []
  | c :: cs => if isJsonWs c || c = Char.ofNat 11 || c = Char.ofNat 12
               then dropWsList cs else c :: cs

def pyStrip (s : String) : String :=
  String.mk ((dropWsList (dropWsList s.data).reverse).reverse)

/-- The code-fence cleanup of `analyze_content` (gemini_client.py lines
90-95): strip whitespace, drop a leading 7-character marker when the text
starts with three backticks followed by `json`, drop a trailing 3-character
marker when it ends with three backticks, strip again. -/
def stripFences (s : String) : String :=
  let cs := (pyStrip s).data
  let cs :=
    match cs with
    | '`' :: '`' :: '`' :: 'j' :: 's' :: 'o' :: 'n' :: rest => rest
    | _ => cs
  let cs :=
    match cs.reverse with
    | '`' :: '`' :: '`' :: rest => rest.reverse
    | _ => cs
  pyStrip (String.mk cs)

/-- The tag of the normalized content handed to `analyze_content`
(telegram_bot.py builds dicts with type text / image / audio). `other`
stands for any unsupported type string. -/
inductive ContentType : Type where
  | text : ContentType
  | image : ContentType
  | audio : ContentType
  | other : ContentType
deriving Repr, DecidableEq

/-- Outcome of the single `model.generate_content` call: either the call
(or the content preparation around it) raised, or it returned a text. -/
inductive ModelOutcome : Type where
  | err : ModelOutcome
  | reply : String → ModelOutcome
deriving Repr

/-- `gemini_client.analyze_content`, returning the parsed value (Python
`None` becomes `Option.none`) together with the number of
`generate_content` calls made.  An unsupported content type returns `None`
before any call; a transport error or a JSON decode error is caught and
returns `None`; a successfully parsed value is returned as-is with no shape
validation. -/
def analyzeContent (ct : ContentType) (m : ModelOutcome) : Option JVal × Nat :=
  match ct with
  | ContentType.other => (none, 0)
  | _ =>
    match m with
    | ModelOutcome.err => (none, 1)
    | ModelOutcome.reply t => (jsonLoads (stripFences t), 1)

/-- Is a JSON value a string-or-null? (nutrition schema field type) -/
def isStrOrNull : JVal → Bool
  | JVal.null => true
  | JVal.str _ => true
  | _ => false

/-- Is a JSON value an integer-or-null? (nutrition schema field type) -/
def isIntOrNull : JVal → Bool
  | JVal.null => true
  | JVal.int _ => true
  | _ => false

/-- Does a parsed JSON value match the nutrition schema of the prompt:
an object with `food_item` string-or-null, `calories` integer-or-null and a
`macros` object whose `protein`, `carbohydrates`, `fat` are
integer-or-null? -/
def isNutritionShape : JVal → Bool
  | JVal.obj fields =>
    (match fields.lookup ("food_item") with
     | some v => isStrOrNull v
     | none => false)
    &&
    (match fields.lookup ("calories") with
     | some v => isIntOrNull v
     | none => false)
    &&
    (match fields.lookup ("macros") with
     | some (JVal.obj ms) =>
       (match ms.lookup ("protein") with
        | some v => isIntOrNull v
        | none => false)
       &&
       (match ms.lookup ("carbohydrates") with
        | some v => isIntOrNull v
        | none => false)
       &&
       (match ms.lookup ("fat") with
        | some v => isIntOrNull v
        | none => false)
     | _ => false)
  | _ => false

def jvalOfOptStr : Option String → JVal
  | none => JVal.null
  | some s => JVal.str s

def jvalOfOptInt : Option Int → JVal
  | none => JVal.null
  | some n => JVal.int n

/-- The JSON object the prompt asks the model to emit for a given
nutrition record (null fields rendered as JSON `null`). -/
def jsonOfRecord (r : NutritionRecord) : JVal :=
  JVal.obj
    [("food_item", jvalOfOptStr r.food_item),
     ("calories", jvalOfOptInt r.calories),
     ("macros", JVal.obj
       [("protein", jvalOfOptInt r.protein),
        ("carbohydrates", jvalOfOptInt r.carbohydrates),
        ("fat", jvalOfOptInt r.fat)])]

def optStrOfJVal : JVal → Option (Option String)
  | JVal.null => some none
  | JVal.str s => some (some s)
  | _ => none

def optIntOfJVal : JVal → Option (Option Int)
  | JVal.null => some none
  | JVal.int n => some (some n)
  | _ => none

/-- Extract the nutrition record from a parsed JSON value, the way the
downstream code reads it (field lookups); fails on a shape mismatch. -/
def recordOfJson : JVal → Option NutritionRecord
  | JVal.obj fields =>
    match fields.lookup ("food_item"), fields.lookup ("calories"),
          fields.lookup ("macros") with
    | some fv, some cv, some (JVal.obj ms) =>
      (match optStrOfJVal fv, optIntOfJVal cv,
             ms.lookup ("protein"), ms.lookup ("carbohydrates"),
             ms.lookup ("fat") with
       | some fi, some c, some pv, some cbv, some ftv =>
         match optIntOfJVal pv, optIntOfJVal cbv, optIntOfJVal ftv with
         | some p, some cb, some ft =>
           some ⟨fi, c, p, cb, ft⟩
         | _, _, _ => none
       | _, _, _, _, _ => none)
    | _, _, _ => none
  | _ => none

/-! ### Models of `datetime.strptime` / Python `int()` on strings -/

/-- A calendar date (the `.date()` component used for range filtering). -/
structure Date : Type where
  y : Nat
  m : Nat
  d : Nat
deriving Repr, DecidableEq

/-- Date order used by `start_date <= entry_date <= end_date`. -/
def dateLe (a b : Date) : Bool :=
  a.y < b.y || (a.y = b.y && (a.m < b.m || (a.m = b.m && a.d ≤ b.d)))

def isLeap (y : Nat) : Bool :=
  y % 4 = 0 && (y % 100 ≠ 0 || y % 400 = 0)

def daysInMonth (y m : Nat) : Nat :=
  if m = 2 then (if isLeap y then 29 else 28)
  else if m = 4 || m = 6 || m = 9 || m = 11 then 30
  else 31

/-- Is this a date `datetime(...)` accepts (year 1-9999, valid month/day)? -/
def validDate (dt : Date) : Bool :=
  1 ≤ dt.y && dt.y ≤ 9999 && 1 ≤ dt.m && dt.m ≤ 12 &&
  1 ≤ dt.d && dt.d ≤ daysInMonth dt.y dt.m

def digitVal (c : Char) : Nat := c.toNat - 48

/-- Read exactly four digits (the `%Y` directive of `strptime`). -/
def readYear : List Char → Option (Nat × List Char)
  | a :: b :: c :: d :: rest =>
    if a.isDigit && b.isDigit && c.isDigit && d.isDigit then
      some (digitVal a * 1000 + digitVal b * 100 + digitVal c * 10 +
            digitVal d, rest)
    else none
  | _ => none

/-- Read one or two digits, preferring two when the two-digit value is at
most `hi` (the backtracking behaviour of `strptime`'s numeric
directives). A two-digit read below `lo`, or a one-digit read below `lo`,
fails. -/
def readNum2 (lo hi : Nat) : List Char → Option (Nat × List Char)
  | a :: b :: rest =>
    if a.isDigit && b.isDigit && lo ≤ digitVal a * 10 + digitVal b &&
       digitVal a * 10 + digitVal b ≤ hi then
      some (digitVal a * 10 + digitVal b, rest)
    else if a.isDigit && lo ≤ digitVal a && digitVal a ≤ hi then
      some (digitVal a, b :: rest)
    else none
  | [a] =>
    if a.isDigit && lo ≤ digitVal a && digitVal a ≤ hi then
      some (digitVal a, [])
    else none
  | [] => none

def expectChar (c : Char) : List Char → Option (List Char)
  | x :: rest => if x = c then some rest else none
  | [] => none

/-- Model of `datetime.strptime(s, "%Y-%m-%d").date()`: four-digit year,
one-or-two-digit month and day, the whole string consumed, and a valid
calendar date. -/
def strptimeDate (s : String) : Option Date :=
  match readYear s.data with
  | none => none
  | some (y, r1) =>
    match expectChar '-' r1 with
    | none => none
    | some r2 =>
      match readNum2 1 12 r2 with
      | none => none
      | some (m, r3) =>
        match expectChar '-' r3 with
        | none => none
        | some r4 =>
          match readNum2 1 31 r4 with
          | none => none
          | some (d, r5) =>
            if r5 = [] && validDate ⟨y, m, d⟩ then some ⟨y, m, d⟩ else none

/-- Model of `datetime.strptime(s, "%Y-%m-%d %H:%M:%S").date()`: the date
part as above, a space, then hour/minute/second in range; only the date
component is returned, since only `.date()` is used. -/
def strptimeDateTime (s : String) : Option Date :=
  match readYear s.data with
  | none => none
  | some (y, r1) =>
    match expectChar '-' r1 with
    | none => none
    | some r2 =>
      match readNum2 1 12 r2 with
      | none => none
      | some (m, r3) =>
        match expectChar '-' r3 with
        | none => none
        | some r4 =>
          match readNum2 1 31 r4 with
          | none => none
          | some (d, r5) =>
            match expectChar ' ' r5 with
            | none => none
            | some r6 =>
              match readNum2 0 23 r6 with
              | none => none
              | some (_, r7) =>
                match expectChar ':' r7 with
                | none => none
                | some r8 =>
                  match readNum2 0 59 r8 with
                  | none => none
                  | some (_, r9) =>
                    match expectChar ':' r9 with
                    | none => none
                    | some r10 =>
                      match readNum2 0 59 r10 with
                      | none => none
                      | some (_, r11) =>
                        if r11 = [] && validDate ⟨y, m, d⟩ then
                          some ⟨y, m, d⟩
                        else none

/-- Model of Python `int(s)` on a string cell: strip surrounding
whitespace, optional sign, then a non-empty run of ASCII digits (underscore
separators and non-ASCII digits are outside the model's scope); `none`
models the `ValueError`. -/
def pyIntOfString (s : String) : Option Int :=
  let cs := (dropWsList (dropWsList s.data).reverse).reverse
  let (neg, ds) :=
    match cs with
    | '-' :: rest => (true, rest)
    | '+' :: rest => (false, rest)
    | _ => (false, cs)
  if ds ≠ [] && ds.all Char.isDigit then
    some (if neg then -(Int.ofNat (digitsToNat ds)) else Int.ofNat (digitsToNat ds))
  else none

/-! ### `gsheets_client` -/

/-- A worksheet: the ordered list of its rows, each a list of cells. -/
abbrev Sheet : Type := List (List Cell)

/-- Where a store operation fails, modelling the exceptions that
`append_food_entry` / `get_entries_by_date_range` catch around the gspread
calls: `notFound` is `gspread.exceptions.SpreadsheetNotFound` raised by
`open_by_key` (bad identifier or access denied), `otherError` any other
exception from the gspread API. -/
inductive StoreFault : Type where
  | ok : StoreFault
  | notFound : StoreFault
  | otherError : StoreFault
deriving Repr, DecidableEq

/-- The header row `expected_header` of gsheets_client.py. -/
def expectedHeader : List String :=
  ["Date", "Food Item", "Calories", "Protein (g)", "Carbs (g)", "Fat (g)"]

def expectedHeaderRow : List Cell := expectedHeader.map Cell.str

/-- How `get_all_values` hands a written cell back: every cell comes back
as a string, an appended Python `None` reads back as the empty string. -/
def cellToString : Cell → String
  | Cell.null => ""
  | Cell.str s => s
  | Cell.int n => toString n

/-- Python `dict.get(key, default)` on an association list. -/
def dictGet (d : List (String × JVal)) (k : String) (dflt : JVal) : JVal :=
  match d.lookup k with
  | some v => v
  | none => dflt

/-- Convert a scalar JSON field value into the cell appended by
`append_row`; a non-scalar value (object, array, boolean) is modelled as a
failure of the append call. -/
def jvalToCell : JVal → Option Cell
  | JVal.null => some Cell.null
  | JVal.str s => some (Cell.str s)
  | JVal.int n => some (Cell.int n)
  | _ => none

/-- `food_data.get('macros', {}).get(k, 'N/A')` — the inner `.get` raises
`AttributeError` when the `macros` value is present but not a dict, which
the surrounding `except` turns into a failed append (`none` here). -/
def getMacroField (food : List (String × JVal)) (k : String) : Option JVal :=
  match dictGet food ("macros") (JVal.obj []) with
  | JVal.obj ms => some (dictGet ms k (JVal.str ("N/A")))
  | _ => none

/-- The `row_to_insert` of `append_food_entry` (gsheets_client.py lines
55-62): timestamp string, then the five fields read with `.get` defaults of
the literal string `N/A`; `none` models an exception while building or
appending the row. -/
def buildRow (food : List (String × JVal)) (nowStr : String) :
    Option (List Cell) :=
  match jvalToCell (dictGet food ("food_item") (JVal.str ("N/A"))),
        jvalToCell (dictGet food ("calories") (JVal.str ("N/A"))) with
  | some c1, some c2 =>
    (match getMacroField food ("protein"),
           getMacroField food ("carbohydrates"),
           getMacroField food ("fat") with
     | some p, some cb, some ft =>
       (match jvalToCell p, jvalToCell cb, jvalToCell ft with
        | some c3, some c4, some c5 =>
          some [Cell.str nowStr, c1, c2, c3, c4, c5]
        | _, _, _ => none)
     | _, _, _ => none)
  | _, _ => none

/-- `gsheets_client.append_food_entry`: returns the Python result
(`True`/`False`) together with the sheet after the call.  On an entirely
empty sheet the header row is appended first; a wrong first row aborts with
`False` and no write; a `SpreadsheetNotFound` or other gspread exception
returns `False`.  Note that when the header was just written and building
the data row then raises, the header write stays. -/
def appendFoodEntry (clientOk : Bool) (fault : StoreFault) (sheet : Sheet)
    (food : List (String × JVal)) (nowStr : String) : Bool × Sheet :=
  if clientOk = false then (false, sheet)
  else
    match fault with
    | StoreFault.notFound => (false, sheet)
    | StoreFault.otherError => (false, sheet)
    | StoreFault.ok =>
      if sheet.isEmpty then
        let sheet1 := sheet ++ [expectedHeaderRow]
        match buildRow food nowStr with
        | some row => (true, sheet1 ++ [row])
        | none => (false, sheet1)
      else if (sheet.headD []).map cellToString ≠ expectedHeader then
        (false, sheet)
      else
        match buildRow food nowStr with
        | some row => (true, sheet ++ [row])
        | none => (false, sheet)

/-- A data row as handed to the aggregation loop:
`dict(zip(header, row))`, i.e. an association list from the six header
names to the string cell values, truncated at the shorter of the two. -/
abbrev Record : Type := List (String × String)

def recordOfRow (row : List String) : Record :=
  expectedHeader.zip row

/-- The per-row filter of `get_entries_by_date_range` (lines 101-115):
keep the record when its `Date` value is present, non-empty, parses with
`%Y-%m-%d %H:%M:%S`, and its date component lies in the inclusive range;
a missing/empty/unparseable date skips the row with a warning. -/
def keepRecord (startD endD : Date) (r : Record) : Bool :=
  match r.lookup ("Date") with
  | none => false
  | some ds =>
    if ds = "" then false
    else
      match strptimeDateTime ds with
      | none => false
      | some d => dateLe startD d && dateLe d endD

/-- `gsheets_client.get_entries_by_date_range`, returning the Python result
(`None` for every error state) paired with the sheet after the call (the
function performs no write, so the sheet is returned unchanged).  Order of
checks follows the source: client check, `strptime` of the two bounds
(a `ValueError` falls into the outer `except` and yields `None`), the
`open_by_key`/`get_all_values` calls (faults yield `None`), empty sheet
yields the empty list, header mismatch yields `None`, then the row
filter. -/
def getEntriesByDateRange (clientOk : Bool) (fault : StoreFault)
    (sheet : Sheet) (startStr endStr : String) :
    Option (List Record) × Sheet :=
  if clientOk = false then (none, sheet)
  else
    match strptimeDate startStr, strptimeDate endStr with
    | some startD, some endD =>
      (match fault with
       | StoreFault.notFound => (none, sheet)
       | StoreFault.otherError => (none, sheet)
       | StoreFault.ok =>
         let allValues := sheet.map (fun row => row.map cellToString)
         if allValues.isEmpty then (some [], sheet)
         else if allValues.headD [] ≠ expectedHeader then (none, sheet)
         else
           let records := (allValues.drop 1).map recordOfRow
           (some (records.foldl
             (fun acc r => if keepRecord startD endD r then acc ++ [r]
                           else acc) []), sheet))
    | _, _ => (none, sheet)

/-! ### The query-path aggregation (telegram_bot.handle_query, lines
110-121) -/

/-- The running totals, collected food items, and the number of rows
skipped with a warning (one warning log per failing row). -/
structure AggState : Type where
  cal : Int
  pro : Int
  carb : Int
  fat : Int
  items : List String
  skipped : Nat
deriving Repr, DecidableEq

def initAgg : AggState := ⟨0, 0, 0, 0, [], 0⟩

/-- `int(entry.get(key, 0))`: a missing key yields the integer default `0`
(so `int` succeeds with `0`); a present value is a string cell fed to
Python `int`. `none` models the `ValueError`. -/
def intOfField (r : Record) (k : String) : Option Int :=
  match r.lookup k with
  | none => some 0
  | some s => pyIntOfString s

/-- One iteration of the aggregation loop.  The four `+=` statements and
the `food_items.append` run in order inside one `try`: a `ValueError`
partway through keeps the increments already made, skips the rest of the
row, logs one warning, and moves on. -/
def aggEntry (st : AggState) (r : Record) : AggState :=
  match intOfField r ("Calories") with
  | none => { st with skipped := st.skipped + 1 }
  | some c =>
    let st := { st with cal := st.cal + c }
    match intOfField r ("Protein (g)") with
    | none => { st with skipped := st.skipped + 1 }
    | some p =>
      let st := { st with pro := st.pro + p }
      match intOfField r ("Carbs (g)") with
      | none => { st with skipped := st.skipped + 1 }
      | some cb =>
        let st := { st with carb := st.carb + cb }
        match intOfField r ("Fat (g)") with
        | none => { st with skipped := st.skipped + 1 }
        | some f =>
          let st := { st with fat := st.fat + f }
          let item :=
            match r.lookup ("Food Item") with
            | some s => s
            | none => "Unknown Item"
          { st with items := st.items ++ [item] }

/-- The whole aggregation loop over the entries returned by the range
read. -/
def aggregateEntries (entries : List Record) : AggState :=
  entries.foldl aggEntry initAgg

/-- The rendered food-item list of the summary:
one `- item` line per collected item, in order. -/
def foodListStr (items : List String) : String :=
  String.intercalate ("\n") (items.map (fun it => "- " ++ it))

/-! ### The Router log path (telegram_bot.process_request) -/

/-- Python truthiness of a parsed JSON value (`not food_data`,
`not food_data.get('food_item')`). -/
def pyTruthy : JVal → Bool
  | JVal.null => false
  | JVal.bool b => b
  | JVal.int n => n ≠ 0
  | JVal.str s => s ≠ ""
  | JVal.arr l => !l.isEmpty
  | JVal.obj l => !l.isEmpty

/-- Python `str()` of the scalar values that can appear in the success
message (`None`, booleans, integers, strings); the `repr` of containers is
outside the model's scope and unreachable on the success path. -/
def pyStr : JVal → String
  | JVal.null => "None"
  | JVal.bool true => "True"
  | JVal.bool false => "False"
  | JVal.int n => toString n
  | JVal.str s => s
  | JVal.arr _ => "<list>"
  | JVal.obj _ => "<dict>"

def couldNotIdentifyMsg : String :=
  "Sorry, I couldn\x27t identify the food item. Please try again with a clearer description or image."

def connectErrorMsg : String :=
  "Error: Could not connect to Google Sheets. Please check server logs."

def persistFailMsg : String :=
  "I analyzed the food, but I failed to log it to Google Sheets. Please check server logs."

def unexpectedErrorMsg : String :=
  "An unexpected error occurred. Please try again later."

/-- The success reply of `process_request` (lines 170-178), rendered from
the same `.get` reads with `N/A` defaults as the source f-string. -/
def successMsg (food : List (String × JVal)) : String :=
  let macros :=
    match dictGet food ("macros") (JVal.obj []) with
    | JVal.obj ms => ms
    | _ => []
  "Successfully logged!\n\n" ++
  "*Food:* " ++ pyStr (dictGet food ("food_item") (JVal.str ("N/A"))) ++ "\n" ++
  "*Calories:* " ++ pyStr (dictGet food ("calories") (JVal.str ("N/A"))) ++ " kcal\n" ++
  "*Protein:* " ++ pyStr (dictGet macros ("protein") (JVal.str ("N/A"))) ++ "g\n" ++
  "*Carbs:* " ++ pyStr (dictGet macros ("carbohydrates") (JVal.str ("N/A"))) ++ "g\n" ++
  "*Fat:* " ++ pyStr (dictGet macros ("fat") (JVal.str ("N/A"))) ++ "g"

def readErrorMsg : String :=
  "Sorry, I encountered an error while trying to read your food log."

def couldNotUnderstandMsg : String :=
  "Sorry, I couldn\x27t understand the date range in your request. Please try asking again (e.g., \x27what did I eat today?\x27 or \x27show me my log from July 1 to July 5\x27)."

def noEntriesFoundMsg (startS endS : String) : String :=
  "I couldn\x27t find any food logged between " ++ startS ++ " and " ++
  endS ++ "."

/-- The summary reply of `handle_query` (telegram_bot.py lines 124-135):
range header (`for` a single date, `from`/`to` otherwise), four total
lines, bulleted item list.  The non-ASCII emoji/bullet glyphs of the
source template are not reproduced; no claim inspects this text. -/
def querySummaryMsg (startS endS : String) (st : AggState) : String :=
  let dateHeader :=
    if startS ≠ endS then "from *" ++ startS ++ "* to *" ++ endS ++ "*"
    else "for *" ++ startS ++ "*"
  "Here is your food log summary " ++ dateHeader ++ ":\n\n" ++
  "*Total Macros*\n" ++
  "  - *Calories:* " ++ toString st.cal ++ " kcal\n" ++
  "  - *Protein:* " ++ toString st.pro ++ "g\n" ++
  "  - *Carbs:* " ++ toString st.carb ++ "g\n" ++
  "  - *Fat:* " ++ toString st.fat ++ "g\n\n" ++
  "*Logged Items*\n" ++ foodListStr st.items

/-- `telegram_bot.handle_query` from the parsed date range onwards, given
the query-interpreter result (`none` is the failure sentinel), whether
`get_gsheets_client` succeeded, the store fault state and the sheet;
returns the final reply text.  A falsy result or falsy/missing
`start_date`/`end_date` gives the could-not-understand message; a truthy
non-dict result makes `.get` raise `AttributeError`, caught by the outer
`except`.  A non-string date value is rendered with `pyStr` here; as in
the source, it then fails `strptime` inside the read and surfaces as the
read-error message. -/
def handleQuery (dateRange : Option JVal) (clientOk : Bool)
    (fault : StoreFault) (sheet : Sheet) : String :=
  match dateRange with
  | none => couldNotUnderstandMsg
  | some dr =>
    if pyTruthy dr = false then couldNotUnderstandMsg
    else
      match dr with
      | JVal.obj fields =>
        (match fields.lookup ("start_date"), fields.lookup ("end_date") with
         | some sv, some ev =>
           if pyTruthy sv = false || pyTruthy ev = false then
             couldNotUnderstandMsg
           else
             let startS := pyStr sv
             let endS := pyStr ev
             if clientOk = false then connectErrorMsg
             else
               (match (getEntriesByDateRange clientOk fault sheet startS
                   endS).1 with
                | none => readErrorMsg
                | some [] => noEntriesFoundMsg startS endS
                | some entries =>
                  querySummaryMsg startS endS (aggregateEntries entries))
         | _, _ => couldNotUnderstandMsg)
      | _ => unexpectedErrorMsg

/-- The parsed date-range dict `{start_date, end_date}` handed to
`handle_query` by the query interpreter on success. -/
def dateRangeDict (startS endS : String) : JVal :=
  JVal.obj [("start_date", JVal.str startS), ("end_date", JVal.str endS)]

/-- What `process_request` did: the final reply text, whether the store
append was attempted, and the sheet afterwards. -/
structure RouterResult : Type where
  reply : String
  appendCalled : Bool
  sheet : Sheet
deriving Repr

/-- `telegram_bot.process_request` given the analyzer result (`none` is the
failure sentinel), whether `get_gsheets_client` succeeded, the store fault
state, the sheet and the timestamp.  `if not food_data or not
food_data.get('food_item')` rejects a falsy result or a falsy/missing
`food_item`; a truthy non-dict result makes `.get` raise `AttributeError`,
caught by the outer `except` (generic message, no append). -/
def processRequest (analyzed : Option JVal) (clientOk : Bool)
    (fault : StoreFault) (sheet : Sheet) (nowStr : String) : RouterResult :=
  match analyzed with
  | none => ⟨couldNotIdentifyMsg, false, sheet⟩
  | some fd =>
    if pyTruthy fd = false then ⟨couldNotIdentifyMsg, false, sheet⟩
    else
      match fd with
      | JVal.obj fields =>
        (match fields.lookup ("food_item") with
         | none => ⟨couldNotIdentifyMsg, false, sheet⟩
         | some v =>
           if pyTruthy v = false then ⟨couldNotIdentifyMsg, false, sheet⟩
           else if clientOk = false then ⟨connectErrorMsg, false, sheet⟩
           else
             let res := appendFoodEntry clientOk fault sheet fields nowStr
             if res.1 then ⟨successMsg fields, true, res.2⟩
             else ⟨persistFailMsg, true, res.2⟩)
      | _ => ⟨unexpectedErrorMsg, false, sheet⟩

/-! ### Derived views of the aggregation loop, used to state the claims -/

/-- What one row contributes to `total_calories`: the `Calories` field is
the first conversion in the `try`, so its value is added exactly when it
itself converts (a missing key contributes the default `0`). -/
def calContrib (r : Record) : Int := (intOfField r ("Calories")).getD 0

/-- A row survives the whole `try` body iff all four macro conversions
succeed. -/
def rowOk (r : Record) : Bool :=
  (intOfField r ("Calories")).isSome && (intOfField r ("Protein (g)")).isSome
  && (intOfField r ("Carbs (g)")).isSome && (intOfField r ("Fat (g)")).isSome

/-- The name appended to `food_items` for a surviving row. -/
def itemName (r : Record) : String :=
  (r.lookup ("Food Item")).getD ("Unknown Item")

/-- Truthiness of the result of a Python `dict.get` (missing key gives
`None`, which is falsy). -/
def optTruthy : Option JVal → Bool
  | none => false
  | some v => pyTruthy v

/-- The analyzer dict for a nutrition record whose five keys are all
present (their values possibly `null`), as the prompt's schema
prescribes. -/
def foodDictOfRecord (r : NutritionRecord) : List (String × JVal) :=
  [("food_item", jvalOfOptStr r.food_item),
   ("calories", jvalOfOptInt r.calories),
   ("macros", JVal.obj
     [("protein", jvalOfOptInt r.protein),
      ("carbohydrates", jvalOfOptInt r.carbohydrates),
      ("fat", jvalOfOptInt r.fat)])]

/-- The cell a nullable string field is persisted as: a `null` value is
written through (an empty cell), never replaced. -/
def cellOfOptStr : Option String → Cell
  | none => Cell.null
  | some s => Cell.str s

/-- The cell a nullable integer field is persisted as. -/
def cellOfOptInt : Option Int → Cell
  | none => Cell.null
  | some n => Cell.int n

/-! ### Helper lemmas -/

theorem foldl_ite_append_eq_filter {α : Type} (p : α → Bool) (l acc : List α) :
    l.foldl (fun acc r => if p r then acc ++ [r] else acc) acc
      = acc ++ l.filter p := by
  induction l generalizing acc with
  | nil => simp
  | cons x xs ih =>
    cases hpx : p x <;> simp [List.filter_cons, hpx, ih]

theorem aggEntry_spec (st : AggState) (r : Record) :
    (aggEntry st r).cal = st.cal + calContrib r ∧
    (aggEntry st r).items = st.items ++ (if rowOk r then [itemName r] else [])
    ∧ (aggEntry st r).skipped = st.skipped + (if rowOk r then 0 else 1) := by
  unfold aggEntry calContrib rowOk itemName
  rcases h1 : intOfField r ("Calories") with _ | c <;>
    simp only [h1, Option.getD, Option.isSome]
  · simp
  rcases h2 : intOfField r ("Protein (g)") with _ | p <;> simp only [h2]
  · simp
  rcases h3 : intOfField r ("Carbs (g)") with _ | cb <;> simp only [h3]
  · simp
  rcases h4 : intOfField r ("Fat (g)") with _ | f <;> simp only [h4]
  · simp
  rcases h5 : r.lookup ("Food Item") with _ | it <;> simp [h5]

theorem foldl_aggEntry_spec (l : List Record) (st : AggState) :
    ((l.foldl aggEntry st).cal = st.cal + (l.map calContrib).sum) ∧
    ((l.foldl aggEntry st).items = st.items ++ (l.filter rowOk).map itemName)
    ∧ ((l.foldl aggEntry st).skipped
        = st.skipped + (l.filter (fun r => !rowOk r)).length) := by
  induction l generalizing st with
  | nil => simp
  | cons x xs ih =>
    obtain ⟨h1, h2, h3⟩ := aggEntry_spec st x
    obtain ⟨i1, i2, i3⟩ := ih (aggEntry st x)
    refine ⟨?_, ?_, ?_⟩
    · rw [List.foldl_cons, i1, h1]; simp [add_assoc]
    · rw [List.foldl_cons, i2, h2]
      cases hx : rowOk x <;> simp [List.filter_cons, hx]
    · rw [List.foldl_cons, i3, h3]
      cases hx : rowOk x <;> simp [List.filter_cons, hx, add_assoc, add_comm]

/-- If a key is found, the association list is non-empty. -/
theorem lookup_some_ne_nil {β : Type} (fields : List (String × β))
    (k : String) (v : β) (h : fields.lookup k = some v) :
    fields.isEmpty = false := by
  cases fields with
  | nil => simp [List.lookup] at h
  | cons kv rest => rfl

/-- In an association list whose values are all `null`, any lookup yields
nothing or `null`. -/
theorem lookup_allNull (fields : List (String × JVal)) (k : String)
    (h : ∀ kv ∈ fields, kv.2 = JVal.null) :
    fields.lookup k = none ∨ fields.lookup k = some JVal.null := by
  induction fields with
  | nil => left; rfl
  | cons kv rest ih =>
    have hkv : kv.2 = JVal.null := h kv (List.mem_cons_self kv rest)
    have hrest : ∀ x ∈ rest, x.2 = JVal.null :=
      fun x hx => h x (List.mem_cons_of_mem kv hx)
    rcases kv with ⟨k1, v1⟩
    simp only at hkv
    subst hkv
    by_cases hk : k = k1
    · right; simp [List.lookup, hk]
    · have hk2 : (k == k1) = false := by simpa using hk
      simpa [List.lookup, hk2] using ih hrest

theorem recordOfJson_jsonOfRecord (r : NutritionRecord) :
    recordOfJson (jsonOfRecord r) = some r := by
  obtain ⟨fi, c, p, cb, ft⟩ := r
  cases fi <;> cases c <;> cases p <;> cases cb <;> cases ft <;> rfl

/-! ### Concrete fixtures used by witnesses and counterexamples -/

/-- The `macros` object of the prompt's own example reply. -/
def appleMacros : JVal :=
  JVal.obj [("protein", JVal.int 0), ("carbohydrates", JVal.int 25),
            ("fat", JVal.int 0)]

/-- The parsed dict for the prompt's example reply about an apple. -/
def appleFood : List (String × JVal) :=
  [("food_item", JVal.str ("Apple")), ("calories", JVal.int 95),
   ("macros", appleMacros)]

def appleRecord : NutritionRecord :=
  ⟨some ("Apple"), some 95, some 0, some 25, some 0⟩

/-- The row `append_food_entry` builds for `appleFood` at a fixed time. -/
def appleRow : List Cell :=
  [Cell.str ("2024-05-01 12:00:00"), Cell.str ("Apple"), Cell.int 95,
   Cell.int 0, Cell.int 25, Cell.int 0]

/-- A read-back data row with the given food item and calories string and
numeric macros, dated 2024-05-01. -/
def exEntry (item cal : String) : Record :=
  [("Date", "2024-05-01 10:00:00"), ("Food Item", item), ("Calories", cal),
   ("Protein (g)", "1"), ("Carbs (g)", "2"), ("Fat (g)", "3")]

/-- The three-row store of the aggregation example: calorie strings
`100`, `bad`, `50`. -/
def exEntries : List Record :=
  [exEntry ("Apple") ("100"), exEntry ("Banana") ("bad"),
   exEntry ("Carrot") ("50")]

/-- A dict whose `calories` value is `null` (not merely missing). -/
def nullCalFood : List (String × JVal) :=
  [("food_item", JVal.str ("Apple")), ("calories", JVal.null),
   ("macros", JVal.obj [("protein", JVal.int 1),
                        ("carbohydrates", JVal.int 2),
                        ("fat", JVal.int 3)])]

/-- A store whose first row is the wrong schema `["Date", "Food"]`. -/
def badHeaderSheet : Sheet := [[Cell.str ("Date"), Cell.str ("Food")]]

/-! ### The claims -/

/-- When the analyzer dict has a non-empty-string `food_item`, the Router
log path reaches the store: it reports a connect error when the client is
missing, otherwise it calls `append_food_entry` and renders success or the
persist-failure message on its boolean result. -/
theorem processRequest_truthyFood (fields : List (String × JVal)) (s : String)
    (clientOk : Bool) (fault : StoreFault) (sheet : Sheet) (nowStr : String)
    (hs : s ≠ "")
    (hlk : fields.lookup ("food_item") = some (JVal.str s)) :
    processRequest (some (JVal.obj fields)) clientOk fault sheet nowStr
      = if clientOk = false then ⟨connectErrorMsg, false, sheet⟩
        else if (appendFoodEntry clientOk fault sheet fields nowStr).1 then
          ⟨successMsg fields, true,
           (appendFoodEntry clientOk fault sheet fields nowStr).2⟩
        else
          ⟨persistFailMsg, true,
           (appendFoodEntry clientOk fault sheet fields nowStr).2⟩ := by
  have hne : fields.isEmpty = false := lookup_some_ne_nil fields _ _ hlk
  have htr : pyTruthy (JVal.obj fields) = true := by simp [pyTruthy, hne]
  have hts : pyTruthy (JVal.str s) = true := by simp [pyTruthy, hs]
  simp [processRequest, htr, hlk, hts]

/-- C1, counterexample.  Over the rows with Calories `100`, `"bad"`, `50`
the calorie total is `150` and exactly one row is skipped — but the
rendered food-item list is `- Apple\n- Carrot`: it does NOT contain the
Food Item of every row, because the `food_items.append` sits inside the
same `try` as the four conversions, so the skipped row's name is dropped.
This refutes the claim's food-item-list conjunct. -/
theorem C1_counterexample :
    aggregateEntries exEntries
      = ⟨150, 2, 4, 6, ["Apple", "Carrot"], 1⟩ ∧
    foodListStr (aggregateEntries exEntries).items = "- Apple\n- Carrot" ∧
    (aggregateEntries exEntries).items.contains ("Banana") = false :=
  ⟨rfl, rfl, rfl⟩

/-- C1 (amended): in the query-path aggregation, a non-numeric `Calories`
value is excluded from the calorie total (never coerced to zero) and the
row is counted as skipped with a warning, without aborting aggregation of
the remaining rows: the calorie total is exactly the sum of the parseable
`Calories` values (a field missing from a short row contributes the
integer default `0`); the rendered food-item list contains, in original
row order, the Food Item of exactly those rows whose four macro fields all
parse (not of every row); the skip count is the number of rows with any
non-parseable macro field; and over rows with Calories `100`, `"bad"`,
`50` the calorie total is `150` with exactly one row skipped. -/
theorem C1_theorem (entries : List Record) :
    (aggregateEntries entries).cal = (entries.map calContrib).sum ∧
    (aggregateEntries entries).items = (entries.filter rowOk).map itemName ∧
    (aggregateEntries entries).skipped
      = (entries.filter (fun r => !rowOk r)).length ∧
    (aggregateEntries exEntries).cal = 150 ∧
    (aggregateEntries exEntries).skipped = 1 := by
  obtain ⟨h1, h2, h3⟩ := foldl_aggEntry_spec entries initAgg
  exact ⟨by simpa [aggregateEntries, initAgg] using h1,
         by simpa [aggregateEntries, initAgg] using h2,
         by simpa [aggregateEntries, initAgg] using h3,
         rfl, rfl⟩

/-- C2, counterexample.  A record whose `calories` field is present with
value `null` is persisted with a `null` (empty) cell, not with the literal
string `N/A`: the `.get(key, 'N/A')` default fires only for a missing key.
This refutes the claim that every null field is replaced by `"N/A"`. -/
theorem C2_counterexample :
    appendFoodEntry true StoreFault.ok [expectedHeaderRow] nullCalFood
        ("2024-05-01 12:00:00")
      = (true, [expectedHeaderRow,
          [Cell.str ("2024-05-01 12:00:00"), Cell.str ("Apple"), Cell.null,
           Cell.int 1, Cell.int 2, Cell.int 3]]) := rfl

/-- C2 (amended): for every NutritionRecord passed to append, the
persisted row is `[now formatted as YYYY-MM-DD HH:MM:SS, food_item,
calories, protein, carbs, fat]`, where every field whose value is null is
written through as a null (empty) cell — never replaced by `"N/A"`; the
literal string `N/A` is substituted only for a field whose KEY is missing
from the analyzer dict (shown for the macros keys and for an entirely
empty dict). -/
theorem C2_theorem (r : NutritionRecord) (nowStr : String) (rest : Sheet)
    (fi : Option String) (c : Option Int) :
    buildRow (foodDictOfRecord r) nowStr
      = some [Cell.str nowStr, cellOfOptStr r.food_item,
              cellOfOptInt r.calories, cellOfOptInt r.protein,
              cellOfOptInt r.carbohydrates, cellOfOptInt r.fat] ∧
    appendFoodEntry true StoreFault.ok (expectedHeaderRow :: rest)
        (foodDictOfRecord r) nowStr
      = (true, (expectedHeaderRow :: rest) ++
          [[Cell.str nowStr, cellOfOptStr r.food_item,
            cellOfOptInt r.calories, cellOfOptInt r.protein,
            cellOfOptInt r.carbohydrates, cellOfOptInt r.fat]]) ∧
    buildRow [("food_item", jvalOfOptStr fi), ("calories", jvalOfOptInt c)]
        nowStr
      = some [Cell.str nowStr, cellOfOptStr fi, cellOfOptInt c,
              Cell.str ("N/A"), Cell.str ("N/A"), Cell.str ("N/A")] ∧
    buildRow [] nowStr
      = some [Cell.str nowStr, Cell.str ("N/A"), Cell.str ("N/A"),
              Cell.str ("N/A"), Cell.str ("N/A"), Cell.str ("N/A")] := by
  have hb : buildRow (foodDictOfRecord r) nowStr
      = some [Cell.str nowStr, cellOfOptStr r.food_item,
              cellOfOptInt r.calories, cellOfOptInt r.protein,
              cellOfOptInt r.carbohydrates, cellOfOptInt r.fat] := by
    obtain ⟨a, b, p, cb, ft⟩ := r
    cases a <;> cases b <;> cases p <;> cases cb <;> cases ft <;> rfl
  refine ⟨hb, ?_, ?_, rfl⟩
  · simp [appendFoodEntry, hb, expectedHeaderRow, expectedHeader,
      cellToString]
  · cases fi <;> cases c <;> rfl

/-- C3, counterexample.  A not-found fault and a header mismatch are both
reported to the Router as the same undifferentiated value `False`, and the
Router renders both as the identical persist-failure message — not as
distinct not-found and fix-your-header messages.  This refutes the claim
that the three store failure kinds reach the user as three different
messages. -/
theorem C3_counterexample :
    appendFoodEntry true StoreFault.notFound [expectedHeaderRow] appleFood
        ("2024-05-01 12:00:00")
      = (false, [expectedHeaderRow]) ∧
    appendFoodEntry true StoreFault.ok badHeaderSheet appleFood
        ("2024-05-01 12:00:00")
      = (false, badHeaderSheet) ∧
    (processRequest (some (JVal.obj appleFood)) true StoreFault.notFound
        [expectedHeaderRow] ("2024-05-01 12:00:00")).reply
      = persistFailMsg ∧
    (processRequest (some (JVal.obj appleFood)) true StoreFault.ok
        badHeaderSheet ("2024-05-01 12:00:00")).reply
      = persistFailMsg :=
  ⟨rfl, rfl, rfl, rfl⟩

/-- C3 (amended): the store client reports every store-operation failure
— not-found/authorization, header mismatch, or any other store error — as
one undifferentiated value (`False` for append, `None` for read); on each
path the Router distinguishes only a failed client initialization
(rendered with the connectivity message) from a failed store operation
(rendered with one shared persist-failure or read-error message), so
not-found and header-mismatch are indistinguishable to the user. -/
theorem C3_theorem (fields : List (String × JVal))
    (s nowStr startS endS : String) (sD eD : Date)
    (sheet : Sheet) (firstRow : List Cell) (rest : Sheet)
    (hs : s ≠ "")
    (hlk : fields.lookup ("food_item") = some (JVal.str s))
    (hbad : ¬ firstRow.map cellToString = expectedHeader)
    (hsd : strptimeDate startS = some sD)
    (hed : strptimeDate endS = some eD) :
    (processRequest (some (JVal.obj fields)) false StoreFault.ok sheet
        nowStr).reply = connectErrorMsg ∧
    appendFoodEntry true StoreFault.notFound sheet fields nowStr
      = (false, sheet) ∧
    appendFoodEntry true StoreFault.otherError sheet fields nowStr
      = (false, sheet) ∧
    appendFoodEntry true StoreFault.ok (firstRow :: rest) fields nowStr
      = (false, firstRow :: rest) ∧
    (processRequest (some (JVal.obj fields)) true StoreFault.notFound sheet
        nowStr).reply = persistFailMsg ∧
    (processRequest (some (JVal.obj fields)) true StoreFault.otherError sheet
        nowStr).reply = persistFailMsg ∧
    (processRequest (some (JVal.obj fields)) true StoreFault.ok
        (firstRow :: rest) nowStr).reply = persistFailMsg ∧
    getEntriesByDateRange true StoreFault.notFound sheet startS endS
      = (none, sheet) ∧
    getEntriesByDateRange true StoreFault.otherError sheet startS endS
      = (none, sheet) ∧
    getEntriesByDateRange true StoreFault.ok (firstRow :: rest) startS endS
      = (none, firstRow :: rest) ∧
    handleQuery (some (dateRangeDict startS endS)) false StoreFault.ok sheet
      = connectErrorMsg ∧
    handleQuery (some (dateRangeDict startS endS)) true StoreFault.notFound
        sheet = readErrorMsg ∧
    handleQuery (some (dateRangeDict startS endS)) true StoreFault.otherError
        sheet = readErrorMsg ∧
    handleQuery (some (dateRangeDict startS endS)) true StoreFault.ok
        (firstRow :: rest) = readErrorMsg ∧
    connectErrorMsg
      = "Error: Could not connect to Google Sheets. Please check server logs." ∧
    persistFailMsg
      = "I analyzed the food, but I failed to log it to Google Sheets. Please check server logs." ∧
    readErrorMsg
      = "Sorry, I encountered an error while trying to read your food log." := by
  have hne1 : startS ≠ "" := by
    intro h; rw [h] at hsd; simp [strptimeDate, readYear] at hsd
  have hne2 : endS ≠ "" := by
    intro h; rw [h] at hed; simp [strptimeDate, readYear] at hed
  have hnf : appendFoodEntry true StoreFault.notFound sheet fields nowStr
      = (false, sheet) := by simp [appendFoodEntry]
  have hoe : appendFoodEntry true StoreFault.otherError sheet fields nowStr
      = (false, sheet) := by simp [appendFoodEntry]
  have hmm : appendFoodEntry true StoreFault.ok (firstRow :: rest) fields
      nowStr = (false, firstRow :: rest) := by simp [appendFoodEntry, hbad]
  have rnf : getEntriesByDateRange true StoreFault.notFound sheet startS endS
      = (none, sheet) := by simp [getEntriesByDateRange, hsd, hed]
  have roe : getEntriesByDateRange true StoreFault.otherError sheet startS
      endS = (none, sheet) := by simp [getEntriesByDateRange, hsd, hed]
  have rmm : getEntriesByDateRange true StoreFault.ok (firstRow :: rest)
      startS endS = (none, firstRow :: rest) := by
    simp [getEntriesByDateRange, hsd, hed, hbad]
  refine ⟨?_, hnf, hoe, hmm, ?_, ?_, ?_, rnf, roe, rmm, ?_, ?_, ?_, ?_,
    rfl, rfl, rfl⟩
  · rw [processRequest_truthyFood fields s false StoreFault.ok sheet nowStr
      hs hlk]
    simp
  · rw [processRequest_truthyFood fields s true StoreFault.notFound sheet
      nowStr hs hlk]
    simp [hnf]
  · rw [processRequest_truthyFood fields s true StoreFault.otherError sheet
      nowStr hs hlk]
    simp [hoe]
  · rw [processRequest_truthyFood fields s true StoreFault.ok
      (firstRow :: rest) nowStr hs hlk]
    simp [hmm]
  · simp [handleQuery, dateRangeDict, pyTruthy, List.lookup, hne1, hne2,
      pyStr]
  · simp [handleQuery, dateRangeDict, pyTruthy, List.lookup, hne1, hne2,
      pyStr, rnf]
  · simp [handleQuery, dateRangeDict, pyTruthy, List.lookup, hne1, hne2,
      pyStr, roe]
  · simp [handleQuery, dateRangeDict, pyTruthy, List.lookup, hne1, hne2,
      pyStr, rmm]

/-- C3, witness. -/
theorem C3_witness :
    (processRequest (some (JVal.obj appleFood)) false StoreFault.ok
        [expectedHeaderRow] ("t")).reply = connectErrorMsg ∧
    appendFoodEntry true StoreFault.notFound [expectedHeaderRow] appleFood
        ("t") = (false, [expectedHeaderRow]) ∧
    appendFoodEntry true StoreFault.otherError [expectedHeaderRow] appleFood
        ("t") = (false, [expectedHeaderRow]) ∧
    appendFoodEntry true StoreFault.ok badHeaderSheet appleFood ("t")
      = (false, badHeaderSheet) ∧
    (processRequest (some (JVal.obj appleFood)) true StoreFault.notFound
        [expectedHeaderRow] ("t")).reply = persistFailMsg ∧
    (processRequest (some (JVal.obj appleFood)) true StoreFault.otherError
        [expectedHeaderRow] ("t")).reply = persistFailMsg ∧
    (processRequest (some (JVal.obj appleFood)) true StoreFault.ok
        badHeaderSheet ("t")).reply = persistFailMsg ∧
    getEntriesByDateRange true StoreFault.notFound [expectedHeaderRow]
        ("2024-05-01") ("2024-05-02") = (none, [expectedHeaderRow]) ∧
    getEntriesByDateRange true StoreFault.otherError [expectedHeaderRow]
        ("2024-05-01") ("2024-05-02") = (none, [expectedHeaderRow]) ∧
    getEntriesByDateRange true StoreFault.ok badHeaderSheet ("2024-05-01")
        ("2024-05-02") = (none, badHeaderSheet) ∧
    handleQuery (some (dateRangeDict ("2024-05-01") ("2024-05-02"))) false
        StoreFault.ok [expectedHeaderRow] = connectErrorMsg ∧
    handleQuery (some (dateRangeDict ("2024-05-01") ("2024-05-02"))) true
        StoreFault.notFound [expectedHeaderRow] = readErrorMsg ∧
    handleQuery (some (dateRangeDict ("2024-05-01") ("2024-05-02"))) true
        StoreFault.otherError [expectedHeaderRow] = readErrorMsg ∧
    handleQuery (some (dateRangeDict ("2024-05-01") ("2024-05-02"))) true
        StoreFault.ok badHeaderSheet = readErrorMsg ∧
    connectErrorMsg
      = "Error: Could not connect to Google Sheets. Please check server logs." ∧
    persistFailMsg
      = "I analyzed the food, but I failed to log it to Google Sheets. Please check server logs." ∧
    readErrorMsg
      = "Sorry, I encountered an error while trying to read your food log." :=
  C3_theorem appleFood ("Apple") ("t") ("2024-05-01") ("2024-05-02")
    ⟨2024, 5, 1⟩ ⟨2024, 5, 2⟩ [expectedHeaderRow]
    [Cell.str ("Date"), Cell.str ("Food")] [] (by decide) rfl (by decide)
    rfl rfl

/-- C4, counterexample.  A reply whose text is valid JSON of the wrong
shape (`[1, 2, 3]` is not a nutrition object) is returned as-is by
`analyze_content`, not mapped to the failure sentinel: the code performs
no shape validation after `json.loads`.  This refutes the claim's
unexpected-shape clause. -/
theorem C4_counterexample :
    analyzeContent ContentType.text (ModelOutcome.reply ("[1, 2, 3]"))
      = (some (JVal.arr [JVal.int 1, JVal.int 2, JVal.int 3]), 1) ∧
    isNutritionShape (JVal.arr [JVal.int 1, JVal.int 2, JVal.int 3])
      = false :=
  ⟨rfl, rfl⟩

/-- C4 (amended): for every model response, `analyze` returns the failure
sentinel (and does not raise out of the layer) whenever the response text
fails strict JSON parsing or whenever the transport call errors, making
exactly one model call with no retry; a response that parses as JSON is
returned unvalidated, even when it does not match the nutrition-record
shape. -/
theorem C4_theorem (ct : ContentType) (t : String) (m : ModelOutcome)
    (hct : ct ≠ ContentType.other)
    (hparse : jsonLoads (stripFences t) = none) :
    analyzeContent ct ModelOutcome.err = (none, 1) ∧
    analyzeContent ct (ModelOutcome.reply t) = (none, 1) ∧
    (analyzeContent ct m).2 = 1 := by
  cases ct <;> simp_all [analyzeContent] <;> cases m <;> rfl

/-- C4, witness. -/
theorem C4_witness :
    analyzeContent ContentType.text ModelOutcome.err = (none, 1) ∧
    analyzeContent ContentType.text (ModelOutcome.reply ("oops")) = (none, 1)
    ∧ (analyzeContent ContentType.text (ModelOutcome.reply ("x"))).2 = 1 :=
  C4_theorem ContentType.text ("oops") (ModelOutcome.reply ("x"))
    (by decide) rfl

/-- C5, counterexample.  `read_range` against an entirely empty store
returns the empty sequence and writes nothing: the header row is NOT
written (only `append` writes it).  This refutes the claim that for every
store operation an empty store gets the header row written before the
operation proceeds. -/
theorem C5_counterexample :
    getEntriesByDateRange true StoreFault.ok [] ("2024-05-01") ("2024-05-02")
      = (some [], ([] : Sheet)) :=
  rfl

/-- C5 (amended): `append` against an entirely empty store writes the
`HeaderSchema` row and proceeds; against a store whose first row equals
`HeaderSchema` exactly, both operations proceed without writing the
header; against any other first row both `append` and `read_range` return
their failure value (`False` / `None`) with the store left completely
unmodified; `read_range` against an entirely empty store returns the
empty sequence without writing the header. -/
theorem C5_theorem (food : List (String × JVal)) (nowStr : String)
    (row firstRow : List Cell) (rest : Sheet)
    (startS endS : String) (sD eD : Date)
    (hrow : buildRow food nowStr = some row)
    (hs : strptimeDate startS = some sD)
    (he : strptimeDate endS = some eD)
    (hbad : ¬ firstRow.map cellToString = expectedHeader) :
    appendFoodEntry true StoreFault.ok [] food nowStr
      = (true, [expectedHeaderRow, row]) ∧
    appendFoodEntry true StoreFault.ok (expectedHeaderRow :: rest) food nowStr
      = (true, (expectedHeaderRow :: rest) ++ [row]) ∧
    appendFoodEntry true StoreFault.ok (firstRow :: rest) food nowStr
      = (false, firstRow :: rest) ∧
    getEntriesByDateRange true StoreFault.ok (firstRow :: rest) startS endS
      = (none, firstRow :: rest) ∧
    getEntriesByDateRange true StoreFault.ok [] startS endS
      = (some [], []) := by
  refine ⟨?_, ?_, ?_, ?_, ?_⟩
  · simp [appendFoodEntry, hrow]
  · simp [appendFoodEntry, hrow, expectedHeaderRow, expectedHeader,
      cellToString]
  · simp [appendFoodEntry, hbad]
  · simp [getEntriesByDateRange, hs, he, hbad]
  · simp [getEntriesByDateRange, hs, he]

/-- C5, witness. -/
theorem C5_witness :
    appendFoodEntry true StoreFault.ok [] appleFood ("2024-05-01 12:00:00")
      = (true, [expectedHeaderRow, appleRow]) ∧
    appendFoodEntry true StoreFault.ok [expectedHeaderRow] appleFood
        ("2024-05-01 12:00:00")
      = (true, [expectedHeaderRow] ++ [appleRow]) ∧
    appendFoodEntry true StoreFault.ok badHeaderSheet appleFood
        ("2024-05-01 12:00:00")
      = (false, badHeaderSheet) ∧
    getEntriesByDateRange true StoreFault.ok badHeaderSheet ("2024-05-01")
        ("2024-05-02")
      = (none, badHeaderSheet) ∧
    getEntriesByDateRange true StoreFault.ok [] ("2024-05-01") ("2024-05-02")
      = (some [], []) :=
  C5_theorem appleFood ("2024-05-01 12:00:00") appleRow
    [Cell.str ("Date"), Cell.str ("Food")] [] ("2024-05-01") ("2024-05-02")
    ⟨2024, 5, 1⟩ ⟨2024, 5, 2⟩ rfl rfl rfl (by decide)

/-- C6: for every store with the correct header and every inclusive
range, `read_range` returns exactly the data rows whose `Date` parses with
`%Y-%m-%d %H:%M:%S` and whose date component lies in `[start, end]`, in
original store order (a `List.filter`, which preserves order); rows with a
missing, empty or unparseable `Date` are merely dropped (the result is
always `some`, never a failure, whatever the row contents); a store with
no data rows yields the empty sequence. -/
theorem C6_theorem (startS endS : String) (sD eD : Date)
    (dataRows : List (List Cell))
    (hs : strptimeDate startS = some sD)
    (he : strptimeDate endS = some eD) :
    getEntriesByDateRange true StoreFault.ok (expectedHeaderRow :: dataRows)
        startS endS
      = (some (((dataRows.map (fun row => row.map cellToString)).map
            recordOfRow).filter (keepRecord sD eD)),
         expectedHeaderRow :: dataRows) ∧
    getEntriesByDateRange true StoreFault.ok [expectedHeaderRow] startS endS
      = (some [], [expectedHeaderRow]) := by
  constructor
  · simp [getEntriesByDateRange, hs, he, cellToString, expectedHeaderRow,
      expectedHeader, foldl_ite_append_eq_filter]
  · simp [getEntriesByDateRange, hs, he, cellToString, expectedHeaderRow,
      expectedHeader]

/-- The data rows of the `C6` example store: one row in range, one row
with an unparseable date, one row past the range. -/
def exDataRows : List (List Cell) :=
  [[Cell.str ("2024-05-01 10:00:00"), Cell.str ("Apple"), Cell.int 95,
    Cell.int 0, Cell.int 25, Cell.int 0],
   [Cell.str ("garbage"), Cell.str ("Ghost"), Cell.int 1, Cell.int 1,
    Cell.int 1, Cell.int 1],
   [Cell.str ("2024-05-03 10:00:00"), Cell.str ("Late"), Cell.int 1, Cell.int 1,
    Cell.int 1, Cell.int 1]]

def exSheet : Sheet := expectedHeaderRow :: exDataRows

/-- C6, witness: only the in-range row comes back, the unparseable-date
row is skipped without failing the read. -/
theorem C6_witness :
    getEntriesByDateRange true StoreFault.ok exSheet ("2024-05-01")
        ("2024-05-02")
      = (some [[("Date", "2024-05-01 10:00:00"), ("Food Item", "Apple"),
                ("Calories", "95"), ("Protein (g)", "0"),
                ("Carbs (g)", "25"), ("Fat (g)", "0")]], exSheet) :=
  (C6_theorem ("2024-05-01") ("2024-05-02") ⟨2024, 5, 1⟩ ⟨2024, 5, 2⟩
    exDataRows rfl rfl).1.trans rfl

/-- C7: for every analyzer result that is the failure sentinel or a
record whose fields are all null, the Router log path replies with the
could-not-identify-food message, never calls the store append, and leaves
the store untouched. -/
theorem C7_theorem (analyzed : Option JVal) (clientOk : Bool)
    (fault : StoreFault) (sheet : Sheet) (nowStr : String)
    (h : analyzed = none ∨
         ∃ fields, analyzed = some (JVal.obj fields) ∧
           ∀ kv ∈ fields, kv.2 = JVal.null) :
    processRequest analyzed clientOk fault sheet nowStr
      = ⟨couldNotIdentifyMsg, false, sheet⟩ := by
  rcases h with h | ⟨fields, hfd, hnull⟩
  · subst h; rfl
  · subst hfd
    cases hfe : fields.isEmpty with
    | true =>
      have htr : pyTruthy (JVal.obj fields) = false := by
        simp [pyTruthy, hfe]
      simp [processRequest, htr]
    | false =>
      have htr : pyTruthy (JVal.obj fields) = true := by
        simp [pyTruthy, hfe]
      rcases lookup_allNull fields ("food_item") hnull with hlk | hlk
      · simp [processRequest, htr, hlk]
      · simp [processRequest, htr, hlk, pyTruthy]

/-- C7, witness. -/
theorem C7_witness :
    processRequest
        (some (JVal.obj [("food_item", JVal.null), ("calories", JVal.null),
          ("macros", JVal.null)]))
        true StoreFault.ok [] ("t")
      = ⟨couldNotIdentifyMsg, false, []⟩ :=
  C7_theorem _ true StoreFault.ok [] ("t")
    (Or.inr ⟨_, rfl, by simp⟩)

/-- C8: for every model response whose text, after the fence stripping,
is valid JSON matching the nutrition schema (i.e. a value from which a
nutrition record extracts), `analyze` returns exactly that parsed value —
the round trip from response text to record is the identity on the field
values, and extraction inverts the schema rendering. -/
theorem C8_theorem (t : String) (v : JVal) (r : NutritionRecord)
    (h1 : jsonLoads (stripFences t) = some v)
    (h2 : recordOfJson v = some r) :
    (analyzeContent ContentType.text (ModelOutcome.reply t)).1 = some v ∧
    recordOfJson v = some r ∧
    recordOfJson (jsonOfRecord r) = some r :=
  ⟨h1, h2, recordOfJson_jsonOfRecord r⟩

/-- The prompt's example reply for an apple, wrapped in code fences. -/
def appleJsonText : String :=
  "```json\n\x7b\"food_item\":\"Apple\",\"calories\":95,\"macros\":\x7b\"protein\":0,\"carbohydrates\":25,\"fat\":0\x7d\x7d\n```"

/-- C8, witness: the fenced apple reply round-trips to the apple
record. -/
theorem C8_witness :
    (analyzeContent ContentType.text (ModelOutcome.reply appleJsonText)).1
      = some (jsonOfRecord appleRecord) ∧
    recordOfJson (jsonOfRecord appleRecord) = some appleRecord ∧
    recordOfJson (jsonOfRecord appleRecord) = some appleRecord :=
  C8_theorem appleJsonText (jsonOfRecord appleRecord) appleRecord rfl rfl

/-- C9: `append` against an entirely empty store writes the header row
followed by exactly one data row; `append` again against the resulting
store appends exactly one further data row without rewriting or
duplicating the header. -/
theorem C9_theorem (f1 f2 : List (String × JVal)) (n1 n2 : String)
    (r1 r2 : List Cell)
    (h1 : buildRow f1 n1 = some r1) (h2 : buildRow f2 n2 = some r2) :
    appendFoodEntry true StoreFault.ok [] f1 n1
      = (true, [expectedHeaderRow, r1]) ∧
    appendFoodEntry true StoreFault.ok [expectedHeaderRow, r1] f2 n2
      = (true, [expectedHeaderRow, r1, r2]) := by
  constructor
  · simp [appendFoodEntry, h1]
  · simp [appendFoodEntry, h2, expectedHeaderRow, expectedHeader,
      cellToString]

/-- C9, witness. -/
theorem C9_witness :
    appendFoodEntry true StoreFault.ok [] appleFood ("2024-05-01 12:00:00")
      = (true, [expectedHeaderRow, appleRow]) ∧
    appendFoodEntry true StoreFault.ok [expectedHeaderRow, appleRow]
        appleFood ("2024-05-01 12:00:00")
      = (true, [expectedHeaderRow, appleRow, appleRow]) :=
  C9_theorem appleFood appleFood ("2024-05-01 12:00:00")
    ("2024-05-01 12:00:00") appleRow appleRow rfl rfl

/-- C10: with a connected store client, the Router log path attempts the
store append if and only if the analyzer dict's `food_item` (assumed to be
a string, null, or missing, as the schema prescribes) is a non-null,
non-empty string — whatever the other fields hold; otherwise it replies
with the could-not-identify-food message and leaves the store alone. -/
theorem C10_theorem (fields : List (String × JVal)) (fault : StoreFault)
    (sheet : Sheet) (nowStr : String)
    (h : fields.lookup ("food_item") = none ∨
         fields.lookup ("food_item") = some JVal.null ∨
         ∃ s, fields.lookup ("food_item") = some (JVal.str s)) :
    (processRequest (some (JVal.obj fields)) true fault sheet
        nowStr).appendCalled
      = optTruthy (fields.lookup ("food_item")) ∧
    (optTruthy (fields.lookup ("food_item")) = false →
      processRequest (some (JVal.obj fields)) true fault sheet nowStr
        = ⟨couldNotIdentifyMsg, false, sheet⟩) := by
  rcases h with hlk | hlk | ⟨s, hlk⟩
  · cases hfe : fields.isEmpty with
    | true =>
      have htr : pyTruthy (JVal.obj fields) = false := by
        simp [pyTruthy, hfe]
      exact ⟨by simp [processRequest, htr, hlk, optTruthy],
             fun _ => by simp [processRequest, htr]⟩
    | false =>
      have htr : pyTruthy (JVal.obj fields) = true := by
        simp [pyTruthy, hfe]
      exact ⟨by simp [processRequest, htr, hlk, optTruthy],
             fun _ => by simp [processRequest, htr, hlk]⟩
  · have hne := lookup_some_ne_nil fields _ _ hlk
    have htr : pyTruthy (JVal.obj fields) = true := by simp [pyTruthy, hne]
    exact ⟨by simp [processRequest, htr, hlk, optTruthy, pyTruthy],
           fun _ => by simp [processRequest, htr, hlk, pyTruthy]⟩
  · have hne := lookup_some_ne_nil fields _ _ hlk
    have htr : pyTruthy (JVal.obj fields) = true := by simp [pyTruthy, hne]
    by_cases hsx : s = ""
    · subst hsx
      exact ⟨by simp [processRequest, htr, hlk, optTruthy, pyTruthy],
             fun _ => by simp [processRequest, htr, hlk, pyTruthy]⟩
    · rw [processRequest_truthyFood fields s true fault sheet nowStr hsx hlk]
      constructor
      · cases hres : (appendFoodEntry true fault sheet fields nowStr).1 <;>
          simp [hres, optTruthy, hlk, pyTruthy, hsx]
      · intro hfalse
        exfalso
        simp [optTruthy, hlk, pyTruthy, hsx] at hfalse

/-- C10, witness: a dict whose `food_item` is the non-empty string
`Apple` makes the Router call the store append. -/
theorem C10_witness :
    (processRequest (some (JVal.obj appleFood)) true StoreFault.ok []
        ("t")).appendCalled = true :=
  (C10_theorem appleFood StoreFault.ok [] ("t")
    (Or.inr (Or.inr ⟨"Apple", rfl⟩))).1.trans rfl

end CalorieCounter
